import Mathlib

/-!
Verification development for the automated-quotation service: a Flask form
handler (src/app.py) that validates submitted line items, draws a quotation
number by probing the output directory, composes a PDF by merging a one-page
text overlay onto a template, stores the result under a per-representative
directory, and scans that tree for search; plus a raw download route
(src/downlod.py).

The Python source is shallowly embedded below: strings are lists of Char,
floats are rationals, the filesystem is explicit data threaded through the
handler, and randomness is an explicit stream of draws.
-/

/- ===== String and character helpers ===== -/

/-- A Python string, modelled as its list of characters. -/
abbrev Str := List Char

/-- Python s.lower(), character by character. -/
def lowerStr (s : Str) : Str := s.map Char.toLower

/-- Python substring membership test (needle in hay), as a boolean. -/
def isInfixB (needle : Str) : Str → Bool
  | [] => needle.isEmpty
  | c :: rest => needle.isPrefixOf (c :: rest) || isInfixB needle rest

/- String literal constants used by the embedding and its theorems. -/

def pdfExt : Str := ".pdf".data
def qPre : Str := "Q-".data
def kesLabel : Str := "KES ".data
def helveticaName : Str := "Helvetica".data
def dotdot : Str := "..".data
def dotone : Str := ".".data

/- ===== Numeral rendering (Python str and format on numbers) ===== -/

/-- Big-endian decimal digits of a positive natural, with fuel (fuel at least
the number itself suffices, since the argument shrinks by division by 10).
Models the digit loop underlying Python str(int). -/
def pyStrAux : Nat → Nat → List Char
  | _, 0 => []
  | 0, _ => []
  | fuel + 1, n + 1 => pyStrAux fuel ((n + 1) / 10) ++ [Nat.digitChar ((n + 1) % 10)]

/-- Python str(n) for a natural number n. -/
def pyStr (n : Nat) : List Char := if n = 0 then ['0'] else pyStrAux n n

/-- Python str.zfill(w): left-pad with zeros up to width w. -/
def zfill (w : Nat) (s : List Char) : List Char :=
  List.replicate (w - s.length) '0' ++ s

/-- Python str(z) for an integer (possible leading minus sign). -/
def pyIntStr (z : Int) : List Char :=
  if z < 0 then '-' :: pyStr z.natAbs else pyStr z.natAbs

/-- Round-half-to-even to an integer, the rounding used by Python float
formatting. Modelled from Python semantics (library behavior not in src/). -/
def bankersRound (x : ℚ) : Int :=
  if x - ⌊x⌋ < 1 / 2 then ⌊x⌋
  else if 1 / 2 < x - ⌊x⌋ then ⌊x⌋ + 1
  else if ⌊x⌋ % 2 = 0 then ⌊x⌋ else ⌊x⌋ + 1

/-- Python format specifier .0f applied to a number: round to an integer and
render it in decimal. -/
def fmt0f (x : ℚ) : List Char := pyIntStr (bankersRound x)

/-- Decimal digits of the fractional part of x (x in the unit interval),
with fuel bounding the number of digits emitted. -/
def fracDigits : Nat → ℚ → List Char
  | 0, _ => []
  | fuel + 1, x =>
    if x = 0 then []
    else Nat.digitChar (Int.toNat ⌊x * 10⌋) :: fracDigits fuel (x * 10 - ⌊x * 10⌋)

/-- Python str() of a float value, for values with a terminating decimal
expansion: integer part, then a decimal point and the fractional digits
(at least one, so 1 renders as 1.0). Modelled from Python semantics
(library behavior not in src/); agrees with the float repr on the decimal
form inputs the handler parses. -/
def pyFloatStr (q : ℚ) : List Char :=
  (if q < 0 then ['-'] else []) ++ pyStr (Int.toNat ⌊|q|⌋) ++ ['.'] ++
    (if fracDigits 17 (|q| - ⌊|q|⌋) = [] then ['0'] else fracDigits 17 (|q| - ⌊|q|⌋))

/- ===== Identifier generator (src/app.py, generate_quotation_number) ===== -/

/-- Length of the longest filename in a directory listing. -/
def maxLen : List Str → Nat
  | [] => 0
  | s :: rest => max s.length (maxLen rest)

/-- The numeric value tried at iteration k of the collision loop: the source
draws random.randint(1, 9999) and adds counter * 10000, where the counter is 0
for the initial draw and k for the k-th redraw.  draws is the stream of random
values, so the value at iteration k is draws k + k * 10000. -/
def candidateNum (draws : Nat → Nat) (k : Nat) : Nat := draws k + k * 10000

/-- The candidate quotation number at iteration k:
prefix Q- plus the drawn value zero-filled to width 3. -/
def candidateName (draws : Nat → Nat) (k : Nat) : Str :=
  qPre ++ zfill 3 (pyStr (candidateNum draws k))

/-- The filename the loop probes for at iteration k: candidate plus .pdf. -/
def candidateFile (draws : Nat → Nat) (k : Nat) : Str :=
  candidateName draws k ++ pdfExt

/-- The index search of the collision loop: starting from iteration k, return
the first iteration whose probed filename is not present in the directory.
The source loop is unbounded; here fuel bounds the recursion, and the fuel
passed by generate_quotation_number is proved sufficient (the loop provably
terminates), so the exhaustion branch is unreachable. -/
def firstFresh (dir : List Str) (draws : Nat → Nat) : Nat → Nat → Nat
  | 0, k => k
  | fuel + 1, k => if candidateFile draws k ∈ dir then firstFresh dir draws fuel (k + 1) else k

/-- src/app.py generate_quotation_number: draw Q-XXX candidates, probing the
directory listing for candidate.pdf, until an unused name is found.  dir is
the listing of the output directory, draws the stream of random values. -/
def generate_quotation_number (dir : List Str) (draws : Nat → Nat) : Str :=
  candidateName draws (firstFresh dir draws (10 ^ maxLen dir + 1) 0)

/-- The quotation number encoded in a stored quotation filename, which the
handler writes as number_client.pdf (src/app.py line 328): the prefix of the
name before the first underscore. -/
def quotationNoOf (f : Str) : Str := f.takeWhile (fun c => c ≠ '_')

/- ===== Directory search (src/app.py, get_quotation_files) ===== -/

/-- One entry of the storage root listing: either a plain file, or an
immediate subdirectory (a representative directory) with its own listing. -/
inductive FsEntry
  | plain (name : Str)
  | sub (name : Str) (files : List Str)
deriving DecidableEq

/-- The error outcomes of get_quotation_files. -/
inductive SearchErr
  | noDirectory
  | noRepresentatives
  | noQuotations
deriving DecidableEq

/-- Result of get_quotation_files: an error message or a list of
(directory name, filename) results. -/
inductive SearchOutcome
  | err (e : SearchErr)
  | results (rs : List (Str × Str))
deriving DecidableEq

/-- The dirs list of get_quotation_files: the immediate subdirectories of
the root, kept when the rep filter is empty or a case-insensitive substring
of the directory name. -/
def keptDirs (search_rep : Str) (entries : List FsEntry) : List (Str × List Str) :=
  entries.filterMap (fun e =>
    match e with
    | .plain _ => none
    | .sub n files =>
      if search_rep.isEmpty || isInfixB (lowerStr search_rep) (lowerStr n) then
        some (n, files)
      else none)

/-- The results list of get_quotation_files: within each kept directory, the
files ending in .pdf whose name contains the quotation number filter
case-insensitively, as (directory, file) pairs. -/
def searchResults (search_quotation_no search_rep : Str)
    (entries : List FsEntry) : List (Str × Str) :=
  (keptDirs search_rep entries).flatMap (fun d =>
    (d.2.filter (fun f =>
      pdfExt.isSuffixOf f && isInfixB (lowerStr search_quotation_no) (lowerStr f))).map
      (fun f => (d.1, f)))

/-- src/app.py get_quotation_files: root is none when the storage root
directory does not exist; an empty kept-directory list and an empty result
list are distinct errors, and otherwise the aggregated results are
returned. -/
def get_quotation_files (search_quotation_no search_rep : Str)
    (root : Option (List FsEntry)) : SearchOutcome :=
  match root with
  | none => .err .noDirectory
  | some entries =>
    if keptDirs search_rep entries = [] then .err .noRepresentatives
    else if searchResults search_quotation_no search_rep entries = [] then .err .noQuotations
    else .results (searchResults search_quotation_no search_rep entries)

/- ===== PDF composer (src/app.py, create_quotation_pdf) ===== -/

/-- One accepted line item of a quotation. -/
structure Item where
  quantity : ℚ
  rate : ℚ
  amount : ℚ
  vat : ℚ
deriving DecidableEq

/-- The quotation data dictionary passed to the composer. -/
structure QuotationData where
  quotation_no : Str
  date : Str
  client_name : Str
  rep : Str
  quote_items : List Item
  subtotal : ℚ
  tax : ℚ
  total : ℚ
deriving DecidableEq

/-- A drawing operation of the reportlab canvas: set font, draw a string at
(x, y), or draw a right-aligned string at (x, y). -/
inductive Draw
  | font (name : Str) (size : ℚ)
  | str (x y : ℚ) (s : Str)
  | rstr (x y : ℚ) (s : Str)
deriving DecidableEq

/-- A canvas operation: a drawing op, or showPage ending the current page. -/
inductive CanvasOp
  | draw (d : Draw)
  | showPage
deriving DecidableEq

/-- Split a canvas script into pages: each showPage emits the page gathered
so far.  Drawing operations left unflushed when the script ends would form a
trailing page only if non-empty (not exercised here: the source ends its
script with showPage). -/
def canvasPagesAux : List CanvasOp → List Draw → List (List Draw)
  | [], cur => if cur = [] then [] else [cur]
  | CanvasOp.draw d :: rest, cur => canvasPagesAux rest (cur ++ [d])
  | CanvasOp.showPage :: rest, cur => cur :: canvasPagesAux rest []

/-- The item table rows: starting at y, each row draws quantity (str), rate,
amount and VAT (all .0f) at x = 290, 350, 440, 530 (the source advances x by
col_widths[0] then twice by col_widths[2]), then steps y down by 20. -/
def itemRowsOps : ℚ → List Item → List Draw
  | _, [] => []
  | y, it :: rest =>
    [Draw.str 290 y (pyFloatStr it.quantity),
     Draw.str (290 + 60) y (fmt0f it.rate),
     Draw.str (290 + 60 + 90) y (fmt0f it.amount),
     Draw.str (290 + 60 + 90 + 90) y (fmt0f it.vat)] ++ itemRowsOps (y - 20) rest

/-- All drawing operations of the overlay page, in source order: font, the
right-aligned header fields, the client name, the item table from y = 450,
and the right-aligned totals with the KES label. -/
def overlayOps (q : QuotationData) : List Draw :=
  [Draw.font helveticaName 10,
   Draw.rstr 540.27 600.18 q.quotation_no,
   Draw.rstr 540.27 620.18 q.date,
   Draw.rstr 545.27 560.18 q.rep,
   Draw.str 56.68 575.18 q.client_name]
  ++ itemRowsOps 450 q.quote_items
  ++ [Draw.rstr 540 212.7 (kesLabel ++ fmt0f q.subtotal),
      Draw.rstr 540 178.53 (kesLabel ++ fmt0f q.tax),
      Draw.rstr 540 145.36 (kesLabel ++ fmt0f q.total)]

/-- The canvas script of the overlay: the drawing operations, then the single
showPage call, then save (which adds nothing further). -/
def overlayScript (q : QuotationData) : List CanvasOp :=
  (overlayOps q).map CanvasOp.draw ++ [CanvasOp.showPage]

/-- The overlay document: the pages produced by the canvas script. -/
def buildOverlay (q : QuotationData) : List (List Draw) :=
  canvasPagesAux (overlayScript q) []

/-- The merge loop of create_quotation_pdf: for each template page, if an
overlay page with the same index exists, composite it onto the page
(merge_page appends the overlay content to the page content); every page is
added to the output. -/
def mergeDocs {α : Type} (mergePage : α → α → α) : List α → List α → List α
  | [], _ => []
  | p :: ps, [] => p :: mergeDocs mergePage ps []
  | p :: ps, o :: os => mergePage p o :: mergeDocs mergePage ps os

/-- src/app.py create_quotation_pdf, output document structure: build the
one-page overlay for the quotation data and merge it onto the template
page-by-page.  A page is its content, a list of drawing operations. -/
def create_quotation_pdf (template : List (List Draw)) (q : QuotationData) :
    List (List Draw) :=
  mergeDocs (fun base ov => base ++ ov) template (buildOverlay q)

/- ===== Request handler (src/app.py, index, submission branch) ===== -/

/-- A raw form field as submitted: empty string, a string parsing as the
rational q under Python float(), or a string float() rejects. -/
inductive RawField
  | blank
  | num (q : ℚ)
  | malformed
deriving DecidableEq

/-- Python float() on a raw field: the parsed value, or none when a
ValueError is raised (blank and malformed strings both raise). -/
def parseNum : RawField → Option ℚ
  | .blank => none
  | .num q => some q
  | .malformed => none

/-- The VAT parse in the source, float(vats i) if vats i else 0: a blank VAT
defaults to 0 instead of raising. -/
def parseVat : RawField → Option ℚ
  | .blank => some 0
  | .num q => some q
  | .malformed => none

/-- One row of the four parallel item arrays: quantity, rate, amount, vat. -/
abbrev Row4 := RawField × RawField × RawField × RawField

/-- Zip the four parallel arrays into rows (used only when the lengths are
equal, as the source checks first). -/
def zip4 : List RawField → List RawField → List RawField → List RawField → List Row4
  | q :: qs, r :: rs, a :: amts, v :: vs => (q, r, a, v) :: zip4 qs rs amts vs
  | _, _, _, _ => []

/-- The error messages the handler accumulates (each constructor stands for
one distinct message string of the source; a parse failure and a
zero-valued row produce the same row message, as in the source). -/
inductive ErrMsg
  | invalidItemData
  | tooManyItems
  | incompleteRow (i : Nat)
  | clientRequired
  | repRequired
  | itemRequired
  | templateNotFound
  | dirNotWritable
deriving DecidableEq

/-- Accumulator of the per-row loop: accepted items, running subtotal and
tax, and accumulated errors. -/
structure ItemsOutcome where
  items : List Item
  subtotal : ℚ
  tax : ℚ
  errors : List ErrMsg
deriving DecidableEq

/-- One iteration of the per-row loop (src/app.py lines 291-312): parse the
four fields (any failure voids only this row with a row error); a parsed row
is accepted only when quantity, rate and amount are all truthy (non-zero),
accumulating amount into the subtotal and amount * vat / 100 into the tax;
otherwise the same row error is recorded. -/
def processRow (i : Nat) (acc : ItemsOutcome) (r : Row4) : ItemsOutcome :=
  match parseNum r.1, parseNum r.2.1, parseNum r.2.2.1, parseVat r.2.2.2 with
  | some q, some rt, some a, some v =>
    if q ≠ 0 ∧ rt ≠ 0 ∧ a ≠ 0 then
      ⟨acc.items ++ [⟨q, rt, a, v⟩], acc.subtotal + a, acc.tax + a * (v / 100), acc.errors⟩
    else ⟨acc.items, acc.subtotal, acc.tax, acc.errors ++ [.incompleteRow i]⟩
  | _, _, _, _ => ⟨acc.items, acc.subtotal, acc.tax, acc.errors ++ [.incompleteRow i]⟩

/-- The per-row loop over the zipped rows, carrying the row index. -/
def processRows (i : Nat) (acc : ItemsOutcome) : List Row4 → ItemsOutcome
  | [] => acc
  | r :: rest => processRows (i + 1) (processRow i acc r) rest

/-- Item processing of the handler (src/app.py lines 283-312): a length
mismatch among the four arrays is a single aggregate error with no rows
processed; more than 6 * 10 items is a single count error; otherwise the
per-row loop runs. -/
def processItems (qs rs amts vs : List RawField) : ItemsOutcome :=
  if qs.length = rs.length ∧ rs.length = amts.length ∧ amts.length = vs.length then
    if qs.length > 6 * 10 then ⟨[], 0, 0, [.tooManyItems]⟩
    else processRows 0 ⟨[], 0, 0, []⟩ (zip4 qs rs amts vs)
  else ⟨[], 0, 0, [.invalidItemData]⟩

/-- The acceptance test of one row, as an optional item: some item exactly when
all four fields parse and quantity, rate and amount are non-zero. -/
def rowItem : Row4 → Option Item := fun r =>
  match parseNum r.1, parseNum r.2.1, parseNum r.2.2.1, parseVat r.2.2.2 with
  | some q, some rt, some a, some v =>
    if q ≠ 0 ∧ rt ≠ 0 ∧ a ≠ 0 then some ⟨q, rt, a, v⟩ else none
  | _, _, _, _ => none

/-- The row errors produced by the loop on a row list starting at index i. -/
def rowErrors : Nat → List Row4 → List ErrMsg
  | _, [] => []
  | i, r :: rest =>
    (if (rowItem r).isSome then [] else [ErrMsg.incompleteRow i]) ++ rowErrors (i + 1) rest

/-- re.sub of the source: any character outside A-Z, a-z, 0-9 and the hyphen
becomes an underscore. -/
def sanitize (s : Str) : Str :=
  s.map (fun c => if c.isAlphanum || c = '-' then c else '_')

/-- The storage state under the quotations root: the representative
subdirectories present, and the files present as (directory, filename)
pairs. -/
structure FS where
  dirs : List Str
  files : List (Str × Str)
deriving DecidableEq

/-- The listing of one representative directory. -/
def filesIn (fs : FS) (d : Str) : List Str :=
  (fs.files.filter (fun p => p.1 == d)).map Prod.snd

/-- os.makedirs when the output directory does not exist (src/app.py lines
269-274, with creation succeeding). -/
def ensureDir (fs : FS) (d : Str) : FS :=
  if d ∈ fs.dirs then fs else ⟨fs.dirs ++ [d], fs.files⟩

/-- A non-search POST submission: the client and representative fields and
the four parallel item arrays. -/
structure Submission where
  client_name : Str
  rep : Str
  quantities : List RawField
  rates : List RawField
  amounts : List RawField
  vats : List RawField
deriving DecidableEq

/-- The four parallel arrays all have the same length. -/
def lengthsEq (sub : Submission) : Prop :=
  sub.quantities.length = sub.rates.length ∧
  sub.rates.length = sub.amounts.length ∧
  sub.amounts.length = sub.vats.length

instance : DecidablePred lengthsEq := fun _ => by
  unfold lengthsEq; infer_instance

/-- The zipped rows of a submission. -/
def rowsOf (sub : Submission) : List Row4 :=
  zip4 sub.quantities sub.rates sub.amounts sub.vats

/-- The full validation error list of a submission: the item-processing
errors followed by the required-field errors (client name, representative,
at least one accepted item), in source order.  It depends only on the
submission. -/
def validationErrors (sub : Submission) : List ErrMsg :=
  (processItems sub.quantities sub.rates sub.amounts sub.vats).errors
    ++ (if sub.client_name = [] then [ErrMsg.clientRequired] else [])
    ++ (if sub.rep = [] then [ErrMsg.repRequired] else [])
    ++ (if (processItems sub.quantities sub.rates sub.amounts sub.vats).items = []
        then [ErrMsg.itemRequired] else [])

/-- Everything the submission branch of index produces that the claims
mention: the drawn quotation number, the accepted items, the derived totals,
the accumulated errors, the resulting storage state, and the file written
(none when no PDF was generated). -/
structure HandlerOutcome where
  quotation_no : Str
  quote_items : List Item
  subtotal : ℚ
  tax : ℚ
  total : ℚ
  errors : List ErrMsg
  fs : FS
  written : Option (Str × Str)
deriving DecidableEq

/-- The submission branch of src/app.py index (lines 252-357): sanitize the
names, create the representative directory if absent, draw a quotation
number by probing that directory, process the item rows, append the
required-field errors, and only when no error was recorded check the
template and writability and write number_client.pdf into the directory.
templateExists and writable stand for the corresponding filesystem checks;
draws is the stream of random values consumed by the generator. -/
def handleSubmission (templateExists writable : Bool) (fs : FS)
    (draws : Nat → Nat) (sub : Submission) : HandlerOutcome :=
  let safe_rep := sanitize sub.rep
  let safe_client := sanitize sub.client_name
  let fs1 := ensureDir fs safe_rep
  let qno := generate_quotation_number (filesIn fs1 safe_rep) draws
  let itemsOut := processItems sub.quantities sub.rates sub.amounts sub.vats
  let total := itemsOut.subtotal + itemsOut.tax
  let errors := validationErrors sub
  if errors = [] then
    if templateExists = false then
      ⟨qno, itemsOut.items, itemsOut.subtotal, itemsOut.tax, total,
       errors ++ [ErrMsg.templateNotFound], fs1, none⟩
    else if writable = false then
      ⟨qno, itemsOut.items, itemsOut.subtotal, itemsOut.tax, total,
       errors ++ [ErrMsg.dirNotWritable], fs1, none⟩
    else
      ⟨qno, itemsOut.items, itemsOut.subtotal, itemsOut.tax, total, errors,
       ⟨fs1.dirs, fs1.files ++ [(safe_rep, qno ++ ['_'] ++ safe_client ++ pdfExt)]⟩,
       some (safe_rep, qno ++ ['_'] ++ safe_client ++ pdfExt)⟩
  else ⟨qno, itemsOut.items, itemsOut.subtotal, itemsOut.tax, total, errors, fs1, none⟩

/- ===== Download route (src/downlod.py, download_file) ===== -/

/-- A filesystem path: an absolute flag and the list of components. -/
structure PyPath where
  absolute : Bool
  comps : List Str
deriving DecidableEq

/-- os.path.join(base, p): an absolute second argument discards the base. -/
def joinPath (base p : PyPath) : PyPath :=
  if p.absolute then p else ⟨base.absolute, base.comps ++ p.comps⟩

/-- Resolution of dot and dot-dot components as the OS performs it during
lookup on a symlink-free tree; dot-dot at the root stays at the root. -/
def resolveComps (cs : List Str) : List Str :=
  cs.foldl (fun acc c =>
    if c = dotdot then acc.dropLast
    else if c = dotone then acc
    else acc ++ [c]) []

/-- The response of the download route: 400, 404, a served file, or the 500
Flask produces for an exception that escapes the handler. -/
inductive DlResponse
  | badRequest
  | notFound
  | served (p : List Str)
  | internalError
deriving DecidableEq

def requestName : Str := "request".data
def sendFileName : Str := "send_file".data
def abortName : Str := "abort".data
def osName : Str := "os".data
def appName : Str := "app".data

/-- The names bound at module level in src/downlod.py by its import
statements (from flask import send_file, abort; import os;
from app import app).  The flask request proxy is not among them. -/
def downlodModuleNames : List Str := [sendFileName, abortName, osName, appName]

/-- The handler body of src/downlod.py below the request lookup, as it would
execute in a scope where the name request resolves: 400 when the file
parameter is missing or empty, otherwise join it beneath the quotations
root; 404 when the joined path does not exist, otherwise the file at the
resolved path is served as an attachment.  fsFiles is the set of existing
files as resolved absolute component lists. -/
def download_file_body (root : PyPath) (fileParam : Option PyPath)
    (fsFiles : List (List Str)) : DlResponse :=
  match fileParam with
  | none => .badRequest
  | some p =>
    if p = ⟨false, []⟩ then .badRequest
    else
      let full := joinPath root p
      if resolveComps full.comps ∈ fsFiles then .served (resolveComps full.comps)
      else .notFound

/-- src/downlod.py download_file: the first statement of the body evaluates
request.args.get, so the name request is resolved against the module
namespace on every invocation before anything else runs; src/downlod.py
never imports request, so the lookup raises NameError, Flask answers 500,
and the 400, 404 and serve branches of the body are never reached. -/
def download_file (root : PyPath) (fileParam : Option PyPath)
    (fsFiles : List (List Str)) : DlResponse :=
  if requestName ∈ downlodModuleNames then download_file_body root fileParam fsFiles
  else .internalError

/- ===== Concrete example data used by witnesses and counterexamples ===== -/

def acmeStr : Str := "Acme".data
def acmeCorpStr : Str := "Acme Corp".data
def otherStr : Str := "Other".data
def acmeWestStr : Str := "acme-west".data
def q1File : Str := "Q-1_x.pdf".data
def q2File : Str := "Q-2_y.pdf".data
def q3File : Str := "Q-3_z.pdf".data
def acmeWestFiles : List Str := [q3File]

/-- The storage root listing of the search example in the claims. -/
def acmeEntries : List FsEntry :=
  [FsEntry.sub acmeCorpStr [q1File],
   FsEntry.sub otherStr [q2File],
   FsEntry.sub acmeWestStr acmeWestFiles]

/-- The result list the search example returns. -/
def acmeResults : List (Str × Str) :=
  [(acmeCorpStr, q1File), (acmeWestStr, q3File)]

def exStoredFile : Str := "Q-005_Acme.pdf".data
def exQno : Str := "Q-005".data

def clientC : Str := "C".data
def repR : Str := "R".data

/-- A submission with one accepted row: quantity 1, rate 2, amount 2, vat 10. -/
def subPosEx : Submission :=
  ⟨clientC, repR, [RawField.num 1], [RawField.num 2], [RawField.num 2], [RawField.num 10]⟩

/-- A submission whose single row has quantity -1, rate 2, amount 3, vat 0. -/
def subNeg : Submission :=
  ⟨clientC, repR, [RawField.num (-1)], [RawField.num 2], [RawField.num 3], [RawField.num 0]⟩

/-- A submission with a quantity-zero first row (positive rate and amount)
and a fully valid second row. -/
def subZeroRow : Submission :=
  ⟨clientC, repR,
   [RawField.num 0, RawField.num 1], [RawField.num 1, RawField.num 2],
   [RawField.num 1, RawField.num 2], [RawField.blank, RawField.blank]⟩

/-- A submission with three quantities but only two rates. -/
def subMismatch : Submission :=
  ⟨clientC, repR,
   [RawField.num 1, RawField.num 1, RawField.num 1], [RawField.num 1, RawField.num 1],
   [RawField.num 1, RawField.num 1, RawField.num 1],
   [RawField.num 1, RawField.num 1, RawField.num 1]⟩

/-- A submission with no item rows at all (rejected: no accepted item). -/
def subNoItems : Submission := ⟨clientC, repR, [], [], [], []⟩

def appStr : Str := "app".data
def quotationsStr : Str := "quotations".data
def etcStr : Str := "etc".data
def passwdStr : Str := "passwd".data

/-- The quotations root of the download example. -/
def dlRoot : PyPath := ⟨true, [appStr, quotationsStr]⟩

/-- The traversal file parameter of the download example. -/
def traversalParam : PyPath := ⟨false, [dotdot, dotdot, etcStr, passwdStr]⟩

/-- The resolved path of the traversal target. -/
def etcPasswd : List Str := [etcStr, passwdStr]

/-- A two-page template document for the merge example. -/
def tmplEx : List (List Draw) := [[Draw.font helveticaName 10], [Draw.str 1 1 qPre]]

/-- A quotation data record for the merge example. -/
def qdEx : QuotationData := ⟨exQno, [], clientC, repR, [], 0, 0, 0⟩

/- ===== Helper lemmas ===== -/

theorem maxLen_le_of_mem {dir : List Str} {x : Str} (hx : x ∈ dir) :
    x.length ≤ maxLen dir := by
  induction dir with
  | nil => cases hx
  | cons s rest ih =>
    rcases List.mem_cons.mp hx with h | h
    · subst h; exact le_max_left _ _
    · exact le_trans (ih h) (le_max_right _ _)

theorem pyStrAux_length_ge (M : Nat) :
    ∀ fuel n, 10 ^ M ≤ n → n ≤ fuel → M + 1 ≤ (pyStrAux fuel n).length := by
  induction M with
  | zero =>
    intro fuel n h1 h2
    match fuel, n with
    | _, 0 => omega
    | 0, n + 1 => omega
    | fuel + 1, n + 1 => simp [pyStrAux]
  | succ M ih =>
    intro fuel n h1 h2
    have hpow : 1 ≤ 10 ^ M := Nat.one_le_pow M 10 (by norm_num)
    match fuel, n with
    | _, 0 =>
      exfalso
      have : 10 ^ (M + 1) = 10 ^ M * 10 := pow_succ 10 M
      omega
    | 0, n + 1 => omega
    | fuel + 1, n + 1 =>
      have hs : 10 ^ (M + 1) = 10 ^ M * 10 := pow_succ 10 M
      have hge10 : 10 ≤ n + 1 := by omega
      have hdiv : 10 ^ M ≤ (n + 1) / 10 := by
        rw [Nat.le_div_iff_mul_le (by norm_num : 0 < 10)]
        omega
      have hdivlt : (n + 1) / 10 < n + 1 := Nat.div_lt_self (by omega) (by norm_num)
      have hfuel : (n + 1) / 10 ≤ fuel := by omega
      have := ih fuel ((n + 1) / 10) hdiv hfuel
      simp only [pyStrAux, List.length_append, List.length_cons, List.length_nil]
      omega

theorem pyStr_length_ge {M n : Nat} (h : 10 ^ M ≤ n) : M + 1 ≤ (pyStr n).length := by
  have hpow : 1 ≤ 10 ^ M := Nat.one_le_pow M 10 (by norm_num)
  have hn : ¬ n = 0 := by omega
  unfold pyStr
  rw [if_neg hn]
  exact pyStrAux_length_ge M n n h le_rfl

theorem candidateFile_length_ge (draws : Nat → Nat) {M k : Nat} (hk : 10 ^ M ≤ k) :
    M + 1 ≤ (candidateFile draws k).length := by
  have hkv : 10 ^ M ≤ candidateNum draws k := by
    have h1 : k * 1 ≤ k * 10000 := Nat.mul_le_mul_left k (by norm_num)
    unfold candidateNum
    omega
  have h2 := pyStr_length_ge hkv
  have h3 : (pyStr (candidateNum draws k)).length ≤ (zfill 3 (pyStr (candidateNum draws k))).length := by
    unfold zfill
    simp [List.length_append]
  have h4 : (zfill 3 (pyStr (candidateNum draws k))).length ≤ (candidateFile draws k).length := by
    unfold candidateFile candidateName
    simp [List.length_append]
    omega
  omega

theorem exists_fresh_idx (dir : List Str) (draws : Nat → Nat) :
    candidateFile draws (10 ^ maxLen dir) ∉ dir := by
  intro hmem
  have h1 := maxLen_le_of_mem hmem
  have h2 := candidateFile_length_ge draws (le_refl (10 ^ maxLen dir))
  omega

theorem firstFresh_spec (dir : List Str) (draws : Nat → Nat) :
    ∀ fuel k, (∃ j, j < fuel ∧ candidateFile draws (k + j) ∉ dir) →
      candidateFile draws (firstFresh dir draws fuel k) ∉ dir ∧
      k ≤ firstFresh dir draws fuel k ∧
      ∀ i, k ≤ i → i < firstFresh dir draws fuel k → candidateFile draws i ∈ dir := by
  intro fuel
  induction fuel with
  | zero =>
    intro k h
    rcases h with ⟨j, hj, _⟩
    omega
  | succ fuel ih =>
    intro k h
    by_cases hc : candidateFile draws k ∈ dir
    · have hrec : ∃ j, j < fuel ∧ candidateFile draws ((k + 1) + j) ∉ dir := by
        rcases h with ⟨j, hj, hfr⟩
        cases j with
        | zero => exact absurd hc (by simpa using hfr)
        | succ j2 =>
          refine ⟨j2, by omega, ?_⟩
          have heq : (k + 1) + j2 = k + (j2 + 1) := by omega
          rw [heq]
          exact hfr
      have hfold : firstFresh dir draws (fuel + 1) k = firstFresh dir draws fuel (k + 1) := by
        show (if candidateFile draws k ∈ dir then firstFresh dir draws fuel (k + 1) else k) =
          firstFresh dir draws fuel (k + 1)
        rw [if_pos hc]
      rcases ih (k + 1) hrec with ⟨ha, hb, hmin⟩
      refine ⟨by rw [hfold]; exact ha, by rw [hfold]; omega, ?_⟩
      intro i hik hilt
      rw [hfold] at hilt
      by_cases hik1 : k + 1 ≤ i
      · exact hmin i hik1 hilt
      · have heq : i = k := by omega
        rw [heq]
        exact hc
    · have hfold : firstFresh dir draws (fuel + 1) k = k := by
        show (if candidateFile draws k ∈ dir then firstFresh dir draws fuel (k + 1) else k) = k
        rw [if_neg hc]
      rw [hfold]
      exact ⟨hc, le_refl k, fun i h1 h2 => absurd (lt_of_le_of_lt h1 h2) (lt_irrefl k)⟩

/- ===== Claims about the identifier generator ===== -/

/-- C8: for every finite directory state and every stream of draws, the
collision retry loop of generate_quotation_number terminates: there is an
iteration k whose probed candidate file is unused, every earlier iteration
collided, and the generator returns exactly the candidate name of that
iteration — no collision is possible indefinitely. -/
theorem c8_generator_terminates (dir : List Str) (draws : Nat → Nat) :
    ∃ k, (∀ j, j < k → candidateFile draws j ∈ dir) ∧
      candidateFile draws k ∉ dir ∧
      generate_quotation_number dir draws = candidateName draws k := by
  have hex : ∃ j, j < 10 ^ maxLen dir + 1 ∧ candidateFile draws (0 + j) ∉ dir :=
    ⟨10 ^ maxLen dir, by omega, by simpa using exists_fresh_idx dir draws⟩
  rcases firstFresh_spec dir draws (10 ^ maxLen dir + 1) 0 hex with ⟨ha, _, hmin⟩
  exact ⟨_, fun j hj => hmin j (Nat.zero_le j) hj, ha, rfl⟩

/-- C1: evaluation of the generator at the failing input.  A directory
holding the stored quotation file Q-005_Acme.pdf — exactly the
number_client.pdf shape the handler writes, carrying quotation number
Q-005 — does not stop the generator from returning Q-005 again, because the
loop probes for Q-005.pdf, a name the handler never writes.  The claimed
uniqueness of quotation numbers within a directory therefore fails. -/
theorem c1_probe_write_mismatch :
    generate_quotation_number [exStoredFile] (fun _ => 5) = exQno ∧
    quotationNoOf exStoredFile = exQno ∧
    exStoredFile = exQno ++ ['_'] ++ sanitize acmeStr ++ pdfExt := by
  refine ⟨by decide, by decide, by decide⟩

/- ===== Handler bridge lemmas ===== -/

theorem processRow_some {r : Row4} {it : Item} (i : Nat) (acc : ItemsOutcome)
    (h : rowItem r = some it) :
    processRow i acc r =
      ⟨acc.items ++ [it], acc.subtotal + it.amount,
       acc.tax + it.amount * (it.vat / 100), acc.errors⟩ := by
  rcases r with ⟨qf, rf, af, vf⟩
  cases qf <;> cases rf <;> cases af <;> cases vf <;>
    simp only [rowItem, processRow, parseNum, parseVat] at h ⊢ <;>
    (try (split_ifs at h ⊢ with hc)) <;> simp_all <;> (try rw [← h]) <;> simp_all

theorem processRow_none {r : Row4} (i : Nat) (acc : ItemsOutcome)
    (h : rowItem r = none) :
    processRow i acc r =
      ⟨acc.items, acc.subtotal, acc.tax, acc.errors ++ [ErrMsg.incompleteRow i]⟩ := by
  rcases r with ⟨qf, rf, af, vf⟩
  cases qf <;> cases rf <;> cases af <;> cases vf <;>
    simp only [rowItem, processRow, parseNum, parseVat] at h ⊢ <;>
    (try (split_ifs at h ⊢ with hc)) <;> simp_all

theorem rowItem_fields {r : Row4} {it : Item} (h : rowItem r = some it) :
    it.quantity ≠ 0 ∧ it.rate ≠ 0 ∧ it.amount ≠ 0 := by
  rcases r with ⟨qf, rf, af, vf⟩
  cases qf <;> cases rf <;> cases af <;> cases vf <;>
    simp only [rowItem, parseNum, parseVat] at h <;>
    (try (split_ifs at h with hc)) <;> simp_all <;> (try rw [← h]) <;> simp_all

theorem rowItem_none_qzero {r : Row4} (h : parseNum r.1 = some 0) :
    rowItem r = none := by
  rcases r with ⟨qf, rf, af, vf⟩
  simp only at h
  cases qf <;> cases rf <;> cases af <;> cases vf <;>
    simp only [rowItem, parseNum, parseVat] at h ⊢ <;> simp_all

theorem processRows_spec : ∀ (rs : List Row4) (i : Nat) (acc : ItemsOutcome),
    processRows i acc rs =
      ⟨acc.items ++ rs.filterMap rowItem,
       acc.subtotal + ((rs.filterMap rowItem).map Item.amount).sum,
       acc.tax + ((rs.filterMap rowItem).map (fun it => it.amount * (it.vat / 100))).sum,
       acc.errors ++ rowErrors i rs⟩ := by
  intro rs
  induction rs with
  | nil =>
    intro i acc
    simp [processRows, rowErrors]
  | cons r rest ih =>
    intro i acc
    rcases hr : rowItem r with _ | it
    · rw [processRows, processRow_none i acc hr, ih]
      simp [rowErrors, hr, List.filterMap_cons, List.append_assoc]
    · rw [processRows, processRow_some i acc hr, ih]
      simp [rowErrors, hr, List.filterMap_cons, List.append_assoc, add_assoc]

theorem processItems_run (sub : Submission) (hlen : lengthsEq sub)
    (hcap : sub.quantities.length ≤ 6 * 10) :
    processItems sub.quantities sub.rates sub.amounts sub.vats =
      processRows 0 ⟨[], 0, 0, []⟩ (rowsOf sub) := by
  have hlen2 : sub.quantities.length = sub.rates.length ∧
      sub.rates.length = sub.amounts.length ∧ sub.amounts.length = sub.vats.length := hlen
  unfold processItems rowsOf
  rw [if_pos hlen2, if_neg (by omega)]

theorem processItems_mismatch (sub : Submission) (hne : ¬ lengthsEq sub) :
    processItems sub.quantities sub.rates sub.amounts sub.vats =
      ⟨[], 0, 0, [ErrMsg.invalidItemData]⟩ := by
  have hne2 : ¬ (sub.quantities.length = sub.rates.length ∧
      sub.rates.length = sub.amounts.length ∧ sub.amounts.length = sub.vats.length) :=
    fun hh => hne hh
  unfold processItems
  rw [if_neg hne2]

theorem processItems_totals (qs rs amts vs : List RawField) :
    (processItems qs rs amts vs).subtotal =
      (((processItems qs rs amts vs).items).map Item.amount).sum ∧
    (processItems qs rs amts vs).tax =
      (((processItems qs rs amts vs).items).map
        (fun it => it.amount * (it.vat / 100))).sum := by
  unfold processItems
  split_ifs <;> simp [processRows_spec]

theorem handleSubmission_quote_items (te w : Bool) (fs : FS) (draws : Nat → Nat)
    (sub : Submission) :
    (handleSubmission te w fs draws sub).quote_items =
      (processItems sub.quantities sub.rates sub.amounts sub.vats).items := by
  simp only [handleSubmission]
  split_ifs <;> rfl

theorem handleSubmission_subtotal (te w : Bool) (fs : FS) (draws : Nat → Nat)
    (sub : Submission) :
    (handleSubmission te w fs draws sub).subtotal =
      (processItems sub.quantities sub.rates sub.amounts sub.vats).subtotal := by
  simp only [handleSubmission]
  split_ifs <;> rfl

theorem handleSubmission_tax (te w : Bool) (fs : FS) (draws : Nat → Nat)
    (sub : Submission) :
    (handleSubmission te w fs draws sub).tax =
      (processItems sub.quantities sub.rates sub.amounts sub.vats).tax := by
  simp only [handleSubmission]
  split_ifs <;> rfl

theorem handleSubmission_total (te w : Bool) (fs : FS) (draws : Nat → Nat)
    (sub : Submission) :
    (handleSubmission te w fs draws sub).total =
      (processItems sub.quantities sub.rates sub.amounts sub.vats).subtotal +
      (processItems sub.quantities sub.rates sub.amounts sub.vats).tax := by
  simp only [handleSubmission]
  split_ifs <;> rfl

theorem handleSubmission_reject (te w : Bool) (fs : FS) (draws : Nat → Nat)
    (sub : Submission) (h : validationErrors sub ≠ []) :
    handleSubmission te w fs draws sub =
      ⟨generate_quotation_number
          (filesIn (ensureDir fs (sanitize sub.rep)) (sanitize sub.rep)) draws,
       (processItems sub.quantities sub.rates sub.amounts sub.vats).items,
       (processItems sub.quantities sub.rates sub.amounts sub.vats).subtotal,
       (processItems sub.quantities sub.rates sub.amounts sub.vats).tax,
       (processItems sub.quantities sub.rates sub.amounts sub.vats).subtotal +
         (processItems sub.quantities sub.rates sub.amounts sub.vats).tax,
       validationErrors sub, ensureDir fs (sanitize sub.rep), none⟩ := by
  simp only [handleSubmission]
  rw [if_neg h]

theorem mem_errors_of_mem_validation (te w : Bool) (fs : FS) (draws : Nat → Nat)
    (sub : Submission) {e : ErrMsg} (he : e ∈ validationErrors sub) :
    e ∈ (handleSubmission te w fs draws sub).errors := by
  by_cases h : validationErrors sub = []
  · rw [h] at he
    cases he
  · rw [handleSubmission_reject te w fs draws sub h]
    exact he

theorem mem_ensureDir_dirs (fs : FS) (d : Str) : d ∈ (ensureDir fs d).dirs := by
  unfold ensureDir
  split_ifs with h
  · exact h
  · simp

theorem ensureDir_files (fs : FS) (d : Str) : (ensureDir fs d).files = fs.files := by
  unfold ensureDir
  split_ifs <;> rfl

theorem incomplete_mem_rowErrors : ∀ (rs : List Row4) (k i : Nat) (r : Row4),
    rs.get? i = some r → rowItem r = none →
    ErrMsg.incompleteRow (k + i) ∈ rowErrors k rs := by
  intro rs
  induction rs with
  | nil =>
    intro k i r h
    simp at h
  | cons hd tl ih =>
    intro k i r h hnone
    cases i with
    | zero =>
      simp only [List.get?] at h
      injection h with h
      subst h
      simp [rowErrors, hnone]
    | succ i2 =>
      simp only [List.get?] at h
      have hmem := ih (k + 1) i2 r h hnone
      have heq : k + (i2 + 1) = (k + 1) + i2 := by omega
      rw [heq]
      unfold rowErrors
      exact List.mem_append_right _ hmem

/- ===== Claims about the request handler ===== -/

/-- C3: for every submission whose accepted item rows all have positive
quantity, rate and amount and non-negative VAT, the derived values of the
handler outcome satisfy subtotal = sum of amounts over the accepted rows,
tax = sum of amount * (vat / 100) over the accepted rows, and
total = subtotal + tax, recomputed from the accepted items. -/
theorem c3_derived_totals (te w : Bool) (fs : FS) (draws : Nat → Nat)
    (sub : Submission)
    (hpos : ∀ it ∈ (handleSubmission te w fs draws sub).quote_items,
      0 < it.quantity ∧ 0 < it.rate ∧ 0 < it.amount ∧ 0 ≤ it.vat) :
    (handleSubmission te w fs draws sub).subtotal =
      (((handleSubmission te w fs draws sub).quote_items).map Item.amount).sum ∧
    (handleSubmission te w fs draws sub).tax =
      (((handleSubmission te w fs draws sub).quote_items).map
        (fun it => it.amount * (it.vat / 100))).sum ∧
    (handleSubmission te w fs draws sub).total =
      (handleSubmission te w fs draws sub).subtotal +
      (handleSubmission te w fs draws sub).tax := by
  rw [handleSubmission_subtotal, handleSubmission_tax, handleSubmission_total,
    handleSubmission_quote_items]
  exact ⟨(processItems_totals _ _ _ _).1, (processItems_totals _ _ _ _).2, rfl⟩

/-- C3 witness: the derived-totals property evaluated on a concrete
single-row submission with quantity 1, rate 2, amount 2, VAT 10. -/
theorem c3_derived_totals_witness :
    (handleSubmission true true ⟨[], []⟩ (fun _ => 1) subPosEx).subtotal =
      (((handleSubmission true true ⟨[], []⟩ (fun _ => 1) subPosEx).quote_items).map
        Item.amount).sum ∧
    (handleSubmission true true ⟨[], []⟩ (fun _ => 1) subPosEx).tax =
      (((handleSubmission true true ⟨[], []⟩ (fun _ => 1) subPosEx).quote_items).map
        (fun it => it.amount * (it.vat / 100))).sum ∧
    (handleSubmission true true ⟨[], []⟩ (fun _ => 1) subPosEx).total =
      (handleSubmission true true ⟨[], []⟩ (fun _ => 1) subPosEx).subtotal +
      (handleSubmission true true ⟨[], []⟩ (fun _ => 1) subPosEx).tax :=
  c3_derived_totals true true ⟨[], []⟩ (fun _ => 1) subPosEx (by decide)

/-- C4 counterexample: a row with quantity -1, rate 2 and amount 3 is
accepted into quote_items, so it is false that every accepted entry has
strictly positive quantity, rate and amount. -/
theorem c4_strict_positive_refuted :
    ¬ (∀ it ∈ (handleSubmission true true ⟨[], []⟩ (fun _ => 1) subNeg).quote_items,
        0 < it.quantity ∧ 0 < it.rate ∧ 0 < it.amount) := by decide

/-- C4 (amended): a row is accepted into quote_items only if quantity, rate
and amount all parse and are non-zero (Python truthiness, so negative values
are accepted too); consequently every entry of quote_items has non-zero
quantity, rate and amount, and a row with a zero or blank value in any of
those fields is rejected with a row-level error. -/
theorem c4_truthy_acceptance (te w : Bool) (fs : FS) (draws : Nat → Nat)
    (sub : Submission) :
    (∀ it ∈ (handleSubmission te w fs draws sub).quote_items,
        it.quantity ≠ 0 ∧ it.rate ≠ 0 ∧ it.amount ≠ 0) ∧
    (∀ i r, lengthsEq sub → sub.quantities.length ≤ 6 * 10 →
        (rowsOf sub).get? i = some r → rowItem r = none →
        ErrMsg.incompleteRow i ∈ (handleSubmission te w fs draws sub).errors) := by
  constructor
  · intro it hit
    rw [handleSubmission_quote_items] at hit
    unfold processItems at hit
    split_ifs at hit with h1 h2
    · simp at hit
    · rw [processRows_spec] at hit
      simp only [List.nil_append] at hit
      rcases List.mem_filterMap.mp hit with ⟨r, _, hr⟩
      exact rowItem_fields hr
    · simp at hit
  · intro i r hlen hcap hget hnone
    apply mem_errors_of_mem_validation
    unfold validationErrors
    apply List.mem_append_left
    apply List.mem_append_left
    apply List.mem_append_left
    rw [processItems_run sub hlen hcap, processRows_spec]
    simpa using incomplete_mem_rowErrors (rowsOf sub) 0 i r hget hnone

/-- C4 witness: on the concrete submission whose first row has quantity 0,
the amended acceptance rule yields the row-level error for row 0. -/
theorem c4_truthy_acceptance_witness :
    ErrMsg.incompleteRow 0 ∈
      (handleSubmission true true ⟨[], []⟩ (fun _ => 1) subZeroRow).errors :=
  (c4_truthy_acceptance true true ⟨[], []⟩ (fun _ => 1) subZeroRow).2 0
    (RawField.num 0, RawField.num 1, RawField.num 1, RawField.blank)
    (by decide) (by decide) (by decide) (by decide)

/-- C5 counterexample: for the submission with a quantity-zero first row and
a fully valid second row, with the template present and the directory
writable, the zero row is rejected and the valid row is accepted, yet no
quotation file is written — refuting the claim that the submission still
produces a persisted quotation. -/
theorem c5_no_quotation_persisted :
    ErrMsg.incompleteRow 0 ∈
      (handleSubmission true true ⟨[], []⟩ (fun _ => 1) subZeroRow).errors ∧
    (⟨1, 2, 2, 0⟩ : Item) ∈
      (handleSubmission true true ⟨[], []⟩ (fun _ => 1) subZeroRow).quote_items ∧
    (handleSubmission true true ⟨[], []⟩ (fun _ => 1) subZeroRow).written = none := by
  decide

/-- C5 (amended): a quantity-zero row is rejected with a row-level error
while the other valid rows of the same submission are still accepted into
quote_items; but because the error list is then non-empty, the handler does
not generate a PDF: no quotation is persisted for that submission. -/
theorem c5_zero_row_rejection (te w : Bool) (fs : FS) (draws : Nat → Nat)
    (sub : Submission) (k j : Nat) (rk rj : Row4) (it : Item)
    (hlen : lengthsEq sub) (hcap : sub.quantities.length ≤ 6 * 10)
    (hk : (rowsOf sub).get? k = some rk) (hkq : parseNum rk.1 = some 0)
    (hj : (rowsOf sub).get? j = some rj) (hjit : rowItem rj = some it) :
    ErrMsg.incompleteRow k ∈ (handleSubmission te w fs draws sub).errors ∧
    it ∈ (handleSubmission te w fs draws sub).quote_items ∧
    (handleSubmission te w fs draws sub).written = none ∧
    (handleSubmission te w fs draws sub).fs.files = fs.files := by
  have hrknone : rowItem rk = none := rowItem_none_qzero hkq
  have herr : ErrMsg.incompleteRow k ∈ validationErrors sub := by
    unfold validationErrors
    apply List.mem_append_left
    apply List.mem_append_left
    apply List.mem_append_left
    rw [processItems_run sub hlen hcap, processRows_spec]
    simpa using incomplete_mem_rowErrors (rowsOf sub) 0 k rk hk hrknone
  have hvne : validationErrors sub ≠ [] := by
    intro hempty
    rw [hempty] at herr
    cases herr
  refine ⟨mem_errors_of_mem_validation te w fs draws sub herr, ?_, ?_, ?_⟩
  · rw [handleSubmission_quote_items, processItems_run sub hlen hcap, processRows_spec]
    simpa using List.mem_filterMap.mpr ⟨rj, List.get?_mem hj, hjit⟩
  · rw [handleSubmission_reject te w fs draws sub hvne]
  · rw [handleSubmission_reject te w fs draws sub hvne]
    exact ensureDir_files fs _

/-- C5 witness: the amended row-rejection property evaluated on the concrete
two-row submission (first row quantity 0, second row fully valid). -/
theorem c5_zero_row_rejection_witness :
    ErrMsg.incompleteRow 0 ∈
      (handleSubmission false true ⟨[], []⟩ (fun _ => 1) subZeroRow).errors ∧
    (⟨1, 2, 2, 0⟩ : Item) ∈
      (handleSubmission false true ⟨[], []⟩ (fun _ => 1) subZeroRow).quote_items ∧
    (handleSubmission false true ⟨[], []⟩ (fun _ => 1) subZeroRow).written = none ∧
    (handleSubmission false true ⟨[], []⟩ (fun _ => 1) subZeroRow).fs.files =
      (FS.mk [] []).files :=
  c5_zero_row_rejection false true ⟨[], []⟩ (fun _ => 1) subZeroRow 0 1
    (RawField.num 0, RawField.num 1, RawField.num 1, RawField.blank)
    (RawField.num 1, RawField.num 2, RawField.num 2, RawField.blank)
    ⟨1, 2, 2, 0⟩ (by decide) (by decide) (by decide) (by decide) (by decide) (by decide)

/-- C6: for every submission whose four parallel item arrays do not all have
equal length, the handler records exactly one aggregate item error, no
per-row error, accepts zero items, and persists no quotation file. -/
theorem c6_length_mismatch (te w : Bool) (fs : FS) (draws : Nat → Nat)
    (sub : Submission) (hne : ¬ lengthsEq sub) :
    ((handleSubmission te w fs draws sub).errors).count ErrMsg.invalidItemData = 1 ∧
    (∀ i, ErrMsg.incompleteRow i ∉ (handleSubmission te w fs draws sub).errors) ∧
    (handleSubmission te w fs draws sub).quote_items = [] ∧
    (handleSubmission te w fs draws sub).written = none ∧
    (handleSubmission te w fs draws sub).fs.files = fs.files := by
  have hpi := processItems_mismatch sub hne
  have hval : validationErrors sub =
      [ErrMsg.invalidItemData]
        ++ (if sub.client_name = [] then [ErrMsg.clientRequired] else [])
        ++ (if sub.rep = [] then [ErrMsg.repRequired] else [])
        ++ [ErrMsg.itemRequired] := by
    unfold validationErrors
    rw [hpi]
    simp
  have hvne : validationErrors sub ≠ [] := by
    rw [hval]
    simp
  rw [handleSubmission_reject te w fs draws sub hvne]
  refine ⟨?_, ?_, by simp [hpi], rfl, ensureDir_files fs _⟩
  · rw [hval]
    simp only [List.count_append]
    split_ifs <;> decide
  · intro i
    rw [hval]
    simp only [List.mem_append]
    split_ifs <;> simp

/-- C6 witness: the mismatch property evaluated on the concrete submission
with three quantities but two rates. -/
theorem c6_length_mismatch_witness :
    ((handleSubmission true true ⟨[], []⟩ (fun _ => 1) subMismatch).errors).count
      ErrMsg.invalidItemData = 1 ∧
    ErrMsg.incompleteRow 0 ∉
      (handleSubmission true true ⟨[], []⟩ (fun _ => 1) subMismatch).errors ∧
    (handleSubmission true true ⟨[], []⟩ (fun _ => 1) subMismatch).quote_items = [] ∧
    (handleSubmission true true ⟨[], []⟩ (fun _ => 1) subMismatch).written = none := by
  have h := c6_length_mismatch true true ⟨[], []⟩ (fun _ => 1) subMismatch (by decide)
  exact ⟨h.1, h.2.1 0, h.2.2.1, h.2.2.2.1⟩

/-- C10: for every non-search POST submission with a non-empty representative
field that validation rejects, the handler has already created the sanitized
representative directory and drawn a quotation number by probing it, so the
outcome keeps the directory present while writing no PDF file at all. -/
theorem c10_reject_side_effects (te w : Bool) (fs : FS) (draws : Nat → Nat)
    (sub : Submission) (hrep : sub.rep ≠ []) (hrej : validationErrors sub ≠ []) :
    sanitize sub.rep ∈ (handleSubmission te w fs draws sub).fs.dirs ∧
    (handleSubmission te w fs draws sub).fs.files = fs.files ∧
    (handleSubmission te w fs draws sub).written = none ∧
    (handleSubmission te w fs draws sub).quotation_no =
      generate_quotation_number
        (filesIn (ensureDir fs (sanitize sub.rep)) (sanitize sub.rep)) draws := by
  rw [handleSubmission_reject te w fs draws sub hrej]
  exact ⟨mem_ensureDir_dirs fs _, ensureDir_files fs _, rfl, rfl⟩

/-- C10 witness: the rejected-submission side effects evaluated on the
concrete itemless submission for representative R over an empty storage
state. -/
theorem c10_reject_side_effects_witness :
    sanitize repR ∈
      (handleSubmission true true ⟨[], []⟩ (fun _ => 1) subNoItems).fs.dirs ∧
    (handleSubmission true true ⟨[], []⟩ (fun _ => 1) subNoItems).fs.files =
      (FS.mk [] []).files ∧
    (handleSubmission true true ⟨[], []⟩ (fun _ => 1) subNoItems).written = none ∧
    (handleSubmission true true ⟨[], []⟩ (fun _ => 1) subNoItems).quotation_no =
      generate_quotation_number
        (filesIn (ensureDir (FS.mk [] []) (sanitize repR)) (sanitize repR)) (fun _ => 1) :=
  c10_reject_side_effects true true ⟨[], []⟩ (fun _ => 1) subNoItems
    (by decide) (by decide)

/- ===== Claims about the download route ===== -/

/-- C2 counterexample: a request with the file parameter missing is not
answered 400, and a parameter resolving to no existing path is not answered
404 — src/downlod.py uses flask.request without importing it, so the first
statement of the body raises NameError on every invocation and each request
ends as a 500 internal error instead. -/
theorem c2_route_dead_cex :
    download_file dlRoot none [etcPasswd] = DlResponse.internalError ∧
    DlResponse.internalError ≠ DlResponse.badRequest ∧
    download_file dlRoot (some ⟨false, [quotationsStr]⟩) [etcPasswd] =
      DlResponse.internalError ∧
    DlResponse.internalError ≠ DlResponse.notFound := by decide

/-- C2 (amended): src/downlod.py resolves the name request on every request
before anything else, and never imports it, so every GET /download request —
file parameter missing, present, or a traversal value such as
../../etc/passwd — ends in the unhandled NameError, a 500 response: no
request is answered 400 or 404, and no file, under or outside the storage
root, is ever served.  The 400, 404 and serve branches of the handler body
are unreachable. -/
theorem c2_route_dead (root : PyPath) (fileParam : Option PyPath)
    (fsFiles : List (List Str)) :
    download_file root fileParam fsFiles = DlResponse.internalError ∧
    ∀ p, download_file root fileParam fsFiles ≠ DlResponse.served p := by
  have hreq : requestName ∉ downlodModuleNames := by decide
  have hval : download_file root fileParam fsFiles = DlResponse.internalError := by
    unfold download_file
    rw [if_neg hreq]
  refine ⟨hval, ?_⟩
  intro p h
  rw [hval] at h
  exact DlResponse.noConfusion h

/-- C2 witness: the dead-route property evaluated at the traversal input of
the claim: the request for ../../etc/passwd gets the 500 response and in
particular /etc/passwd is not served. -/
theorem c2_route_dead_witness :
    download_file dlRoot (some traversalParam) [etcPasswd] =
      DlResponse.internalError ∧
    download_file dlRoot (some traversalParam) [etcPasswd] ≠
      DlResponse.served etcPasswd :=
  ⟨(c2_route_dead dlRoot (some traversalParam) [etcPasswd]).1,
   (c2_route_dead dlRoot (some traversalParam) [etcPasswd]).2 etcPasswd⟩

/- ===== Claims about the PDF composer ===== -/

theorem canvasPagesAux_script : ∀ (l cur : List Draw),
    canvasPagesAux (l.map CanvasOp.draw ++ [CanvasOp.showPage]) cur = [cur ++ l] := by
  intro l
  induction l with
  | nil =>
    intro cur
    simp [canvasPagesAux]
  | cons d rest ih =>
    intro cur
    have h1 : (d :: rest).map CanvasOp.draw ++ [CanvasOp.showPage] =
        CanvasOp.draw d :: (rest.map CanvasOp.draw ++ [CanvasOp.showPage]) := rfl
    have h2 : canvasPagesAux
          (CanvasOp.draw d :: (rest.map CanvasOp.draw ++ [CanvasOp.showPage])) cur =
        canvasPagesAux (rest.map CanvasOp.draw ++ [CanvasOp.showPage]) (cur ++ [d]) := rfl
    rw [h1, h2, ih]
    simp

/-- The overlay canvas produces exactly one page: its whole script draws
onto the current page and calls showPage once. -/
theorem buildOverlay_single (q : QuotationData) : buildOverlay q = [overlayOps q] := by
  unfold buildOverlay overlayScript
  simpa using canvasPagesAux_script (overlayOps q) []

theorem mergeDocs_nil_right {α : Type} (m : α → α → α) :
    ∀ l : List α, mergeDocs m l [] = l := by
  intro l
  induction l with
  | nil => rfl
  | cons p ps ih =>
    unfold mergeDocs
    rw [ih]

/-- C9: for every template document and every quotation, the composed output
has exactly the page count of the template; only the first template page
receives the overlay (the overlay document always has exactly one page), and
every later template page passes through unchanged. -/
theorem c9_merge_structure (template : List (List Draw)) (q : QuotationData) :
    (create_quotation_pdf template q).length = template.length ∧
    (create_quotation_pdf template q).get? 0 =
      (template.get? 0).map (fun p => p ++ overlayOps q) ∧
    ∀ i, 1 ≤ i → (create_quotation_pdf template q).get? i = template.get? i := by
  unfold create_quotation_pdf
  rw [buildOverlay_single]
  cases template with
  | nil =>
    exact ⟨rfl, rfl, fun i _ => rfl⟩
  | cons p ps =>
    have hstep : mergeDocs (fun base ov => base ++ ov) (p :: ps) [overlayOps q] =
        (p ++ overlayOps q) :: mergeDocs (fun base ov => base ++ ov) ps [] := rfl
    rw [hstep, mergeDocs_nil_right]
    refine ⟨by simp, by simp, ?_⟩
    intro i hi
    cases i with
    | zero => omega
    | succ i2 => rfl

/-- C9 witness: the merge-structure property evaluated on a concrete
two-page template, checking that page 1 passes through unchanged. -/
theorem c9_merge_structure_witness :
    (create_quotation_pdf tmplEx qdEx).get? 1 = tmplEx.get? 1 :=
  (c9_merge_structure tmplEx qdEx).2.2 1 (le_refl 1)

/- ===== Claims about the directory search ===== -/

theorem isInfixB_iff (needle hay : Str) : isInfixB needle hay = true ↔ needle <:+: hay := by
  induction hay with
  | nil => simp [isInfixB, List.isEmpty_iff]
  | cons c rest ih =>
    simp [isInfixB, Bool.or_eq_true, List.isPrefixOf_iff_prefix, ih, List.infix_cons_iff]

theorem mem_searchResults {sno srep : Str} {entries : List FsEntry} {d f : Str} :
    (d, f) ∈ searchResults sno srep entries ↔
      ∃ files, FsEntry.sub d files ∈ entries ∧ f ∈ files ∧
        (srep.isEmpty || isInfixB (lowerStr srep) (lowerStr d)) = true ∧
        (pdfExt.isSuffixOf f && isInfixB (lowerStr sno) (lowerStr f)) = true := by
  unfold searchResults keptDirs
  rw [List.mem_flatMap]
  constructor
  · rintro ⟨p, hp, hf⟩
    rcases List.mem_filterMap.mp hp with ⟨e, he, hfm⟩
    cases e with
    | plain n => simp at hfm
    | sub n files =>
      simp only at hfm
      split_ifs at hfm with hcond
      · injection hfm with hfm
        subst hfm
        rcases List.mem_map.mp hf with ⟨f2, hf2, hpair⟩
        rcases List.mem_filter.mp hf2 with ⟨hf2mem, hf2cond⟩
        injection hpair with hd2 hf2eq
        subst hd2
        subst hf2eq
        exact ⟨files, he, hf2mem, hcond, hf2cond⟩
  · rintro ⟨files, he, hff, hcond, hgf⟩
    refine ⟨(d, files), ?_, ?_⟩
    · exact List.mem_filterMap.mpr ⟨FsEntry.sub d files, he, by simp [hcond]⟩
    · exact List.mem_map.mpr ⟨f, List.mem_filter.mpr ⟨hff, hgf⟩, rfl⟩

/-- C7: whenever the search returns a result list, a (directory, file) pair
is in it exactly when the directory is an immediate subdirectory of the root
whose name contains the rep filter as a case-insensitive substring (every
subdirectory when that filter is empty), and the file is one of its files
ending in .pdf whose name contains the quotation-number filter as a
case-insensitive substring (every .pdf file when that filter is empty) —
AND semantics when both filters are supplied. -/
theorem c7_search_characterization (sno srep : Str) (entries : List FsEntry)
    (rs : List (Str × Str))
    (h : get_quotation_files sno srep (some entries) = SearchOutcome.results rs)
    (d f : Str) :
    (d, f) ∈ rs ↔
      ∃ files, FsEntry.sub d files ∈ entries ∧ f ∈ files ∧
        (srep = [] ∨ lowerStr srep <:+: lowerStr d) ∧
        pdfExt <:+ f ∧ lowerStr sno <:+: lowerStr f := by
  have hrs : rs = searchResults sno srep entries := by
    have h2 : (if keptDirs srep entries = [] then
          SearchOutcome.err SearchErr.noRepresentatives
        else if searchResults sno srep entries = [] then
          SearchOutcome.err SearchErr.noQuotations
        else SearchOutcome.results (searchResults sno srep entries)) =
        SearchOutcome.results rs := h
    split_ifs at h2 with hk hr
    first
      | exact h2.symm
      | (injection h2 with h2
         exact h2.symm)
  subst hrs
  rw [mem_searchResults]
  simp only [Bool.or_eq_true, Bool.and_eq_true, List.isEmpty_iff,
    List.isSuffixOf_iff_suffix, isInfixB_iff]

/-- C7 witness: the Acme example: the rep filter Acme over directories
Acme Corp, Other and acme-west returns exactly the files of Acme Corp and
acme-west, and the characterization applied to the acme-west hit. -/
theorem c7_search_characterization_witness :
    get_quotation_files [] acmeStr (some acmeEntries) =
      SearchOutcome.results acmeResults ∧
    (acmeWestStr, q3File) ∈ acmeResults := by
  constructor
  · decide
  · exact (c7_search_characterization [] acmeStr acmeEntries acmeResults (by decide)
      acmeWestStr q3File).mpr
      ⟨acmeWestFiles, by decide, by decide,
       Or.inr ((isInfixB_iff _ _).mp (by decide)),
       List.isSuffixOf_iff_suffix.mp (by decide),
       (isInfixB_iff _ _).mp (by decide)⟩
